import Mathlib

/-!
# Verification of the kaleido workflow-engine SDK core

A shallow embedding of the SDK's directed execution engine
(`helpers/stage_director.ts`), the transaction-batch message handling of
`runtime/handler_runtime.ts`, the request correlator (`EngineClient`), and
the JSON-patch utility (`utils/patch.ts`), with theorems checking the
natural-language specification against the embedded code.
-/

namespace KaleidoSDK

/-- A JSON document value, as passed around by the SDK (handler outputs,
patch values, workflow state). Numbers are modelled as integers, which is
sufficient for the structural patch semantics verified here. -/
inductive Json where
  | null : Json
  | bool (b : Bool) : Json
  | num (n : Int) : Json
  | str (s : String) : Json
  | arr (elems : List Json) : Json
  | obj (fields : List (String × Json)) : Json

mutual

/-- Structural (deep) equality on JSON values, as used by the `test`
patch operation's deep-equal comparison. -/
def Json.beq : Json → Json → Bool
  | .null, .null => true
  | .bool a, .bool b => a == b
  | .num a, .num b => a == b
  | .str a, .str b => a == b
  | .arr xs, .arr ys => Json.beqList xs ys
  | .obj fs, .obj gs => Json.beqObj fs gs
  | _, _ => false

/-- Deep equality on JSON arrays. -/
def Json.beqList : List Json → List Json → Bool
  | [], [] => true
  | x :: xs, y :: ys => Json.beq x y && Json.beqList xs ys
  | _, _ => false

/-- Deep equality on JSON object field lists. -/
def Json.beqObj : List (String × Json) → List (String × Json) → Bool
  | [], [] => true
  | (k, v) :: fs, (l, w) :: gs => k == l && Json.beq v w && Json.beqObj fs gs
  | _, _ => false

end

/-- Patch operation type, from `types/core.ts` `enum PatchOpType`
(`add`, `remove`, `replace`, `move`, `copy`, `test`). -/
inductive PatchOpType where
  | ADD | REMOVE | REPLACE | MOVE | COPY | TEST
deriving DecidableEq

/-- One JSON-Patch operation, from `types/core.ts` `interface PatchOp`
(`{op, path, from?, value?}`). The TS field `from` is spelled `fromPath`
here because `from` is a Lean keyword. -/
structure PatchOp where
  op : PatchOpType
  path : String
  fromPath : Option String := none
  value : Option Json := none

/-- A Patch is an ordered sequence of operations (`types/core.ts`). -/
def Patch := List PatchOp

/-- Unescape one JSON-Pointer segment (RFC 6901): `~1` becomes `/` and
`~0` becomes `~`, in one left-to-right pass. -/
def unescapeChars : List Char → List Char
  | '~' :: '1' :: rest => '/' :: unescapeChars rest
  | '~' :: '0' :: rest => '~' :: unescapeChars rest
  | c :: rest => c :: unescapeChars rest
  | [] => []

/-- Split a character list on `/` separators into pointer segments. -/
def splitSegs : List Char → List (List Char)
  | [] => [[]]
  | '/' :: rest => [] :: splitSegs rest
  | c :: rest =>
    match splitSegs rest with
    | seg :: segs => (c :: seg) :: segs
    | [] => [[c]]

/-- Parse a JSON-Pointer string into its segments: the empty string is the
root pointer, any other pointer must start with `/`. -/
def parsePointer (p : String) : Option (List String) :=
  if p = "" then some []
  else
    match p.data with
    | '/' :: rest => some ((splitSegs rest).map fun seg => String.mk (unescapeChars seg))
    | _ => none

/-- Parse a pointer segment as an array index: decimal digits only. -/
def parseArrayIndex (seg : String) : Option Nat :=
  if seg.data.isEmpty then none
  else if seg.data.all Char.isDigit then
    some (seg.data.foldl (fun n c => n * 10 + (c.toNat - 48)) 0)
  else none

/-- Look up an object member by key. -/
def lookupField : List (String × Json) → String → Option Json
  | [], _ => none
  | (k, v) :: fs, key => if k = key then some v else lookupField fs key

/-- Set (replace or append) an object member. -/
def setField : List (String × Json) → String → Json → List (String × Json)
  | [], key, v => [(key, v)]
  | (k, w) :: fs, key, v =>
    if k = key then (k, v) :: fs else (k, w) :: setField fs key v

/-- Remove an object member; fails when the member is absent. -/
def removeField : List (String × Json) → String → Option (List (String × Json))
  | [], _ => none
  | (k, w) :: fs, key =>
    if k = key then some fs else (removeField fs key).map (fun fs2 => (k, w) :: fs2)

/-- Insert into an array at an index (index equal to the length appends). -/
def insertAt : List Json → Nat → Json → Option (List Json)
  | xs, 0, v => some (v :: xs)
  | [], _ + 1, _ => none
  | x :: xs, n + 1, v => (insertAt xs n v).map (fun ys => x :: ys)

/-- Remove the array element at an index. -/
def removeElem : List Json → Nat → Option (List Json)
  | [], _ => none
  | _ :: xs, 0 => some xs
  | x :: xs, n + 1 => (removeElem xs n).map (fun ys => x :: ys)

/-- Replace the array element at an index. -/
def setElem : List Json → Nat → Json → Option (List Json)
  | [], _, _ => none
  | _ :: xs, 0, v => some (v :: xs)
  | x :: xs, n + 1, v => (setElem xs n v).map (fun ys => x :: ys)

/-- Modelled from the spec: read the value a JSON pointer designates.
The repository applies patches through the external `fast-json-patch`
library, whose sources are not part of this repository; this and the
following definitions follow the spec's RFC-6902-equivalent description
of patch application (§3, §8). -/
def getAtPath : Json → List String → Except String Json
  | doc, [] => .ok doc
  | .obj fields, seg :: rest =>
    match lookupField fields seg with
    | some v => getAtPath v rest
    | none => .error ("path not found: missing object member " ++ seg)
  | .arr elems, seg :: rest =>
    match parseArrayIndex seg with
    | some i =>
      match elems.get? i with
      | some v => getAtPath v rest
      | none => .error "path not found: array index out of bounds"
    | none => .error "path not found: invalid array index"
  | _, _ :: _ => .error "path not found: cannot index into a scalar"

/-- Modelled from the spec: RFC 6902 `add`. At an object member it sets the
member; at an array index it inserts (with `-` meaning append); at the root
it replaces the whole document. -/
def addAtPath : Json → List String → Json → Except String Json
  | _, [], v => .ok v
  | .obj fields, [seg], v => .ok (.obj (setField fields seg v))
  | .arr elems, [seg], v =>
    if seg = "-" then .ok (.arr (elems ++ [v]))
    else
      match parseArrayIndex seg with
      | some i =>
        match insertAt elems i v with
        | some xs => .ok (.arr xs)
        | none => .error "add: array index out of bounds"
      | none => .error "add: invalid array index"
  | _, [_], _ => .error "add: cannot index into a scalar"
  | .obj fields, seg :: rest, v =>
    match lookupField fields seg with
    | some child =>
      match addAtPath child rest v with
      | .ok c => .ok (.obj (setField fields seg c))
      | .error e => .error e
    | none => .error ("add: missing object member " ++ seg)
  | .arr elems, seg :: rest, v =>
    match parseArrayIndex seg with
    | some i =>
      match elems.get? i with
      | some child =>
        match addAtPath child rest v with
        | .ok c =>
          match setElem elems i c with
          | some xs => .ok (.arr xs)
          | none => .error "add: array index out of bounds"
        | .error e => .error e
      | none => .error "add: array index out of bounds"
    | none => .error "add: invalid array index"
  | _, _ :: _, _ => .error "add: cannot index into a scalar"

/-- Modelled from the spec: RFC 6902 `remove`. The target location must
exist; removing the root document is rejected. -/
def removeAtPath : Json → List String → Except String Json
  | _, [] => .error "remove: cannot remove the root document"
  | .obj fields, [seg] =>
    match removeField fields seg with
    | some fs => .ok (.obj fs)
    | none => .error ("remove: missing object member " ++ seg)
  | .arr elems, [seg] =>
    match parseArrayIndex seg with
    | some i =>
      match removeElem elems i with
      | some xs => .ok (.arr xs)
      | none => .error "remove: array index out of bounds"
    | none => .error "remove: invalid array index"
  | _, [_] => .error "remove: cannot index into a scalar"
  | .obj fields, seg :: rest =>
    match lookupField fields seg with
    | some child =>
      match removeAtPath child rest with
      | .ok c => .ok (.obj (setField fields seg c))
      | .error e => .error e
    | none => .error ("remove: missing object member " ++ seg)
  | .arr elems, seg :: rest =>
    match parseArrayIndex seg with
    | some i =>
      match elems.get? i with
      | some child =>
        match removeAtPath child rest with
        | .ok c =>
          match setElem elems i c with
          | some xs => .ok (.arr xs)
          | none => .error "remove: array index out of bounds"
        | .error e => .error e
      | none => .error "remove: array index out of bounds"
    | none => .error "remove: invalid array index"
  | _, _ :: _ => .error "remove: cannot index into a scalar"

/-- Modelled from the spec: RFC 6902 `replace`. The target location must
already exist. -/
def replaceAtPath : Json → List String → Json → Except String Json
  | _, [], v => .ok v
  | .obj fields, [seg], v =>
    if (lookupField fields seg).isSome then .ok (.obj (setField fields seg v))
    else .error ("replace: missing object member " ++ seg)
  | .arr elems, [seg], v =>
    match parseArrayIndex seg with
    | some i =>
      match setElem elems i v with
      | some xs => .ok (.arr xs)
      | none => .error "replace: array index out of bounds"
    | none => .error "replace: invalid array index"
  | _, [_], _ => .error "replace: cannot index into a scalar"
  | .obj fields, seg :: rest, v =>
    match lookupField fields seg with
    | some child =>
      match replaceAtPath child rest v with
      | .ok c => .ok (.obj (setField fields seg c))
      | .error e => .error e
    | none => .error ("replace: missing object member " ++ seg)
  | .arr elems, seg :: rest, v =>
    match parseArrayIndex seg with
    | some i =>
      match elems.get? i with
      | some child =>
        match replaceAtPath child rest v with
        | .ok c =>
          match setElem elems i c with
          | some xs => .ok (.arr xs)
          | none => .error "replace: array index out of bounds"
        | .error e => .error e
      | none => .error "replace: array index out of bounds"
    | none => .error "replace: invalid array index"
  | _, _ :: _, _ => .error "replace: cannot index into a scalar"

/-- Modelled from the spec: apply one patch operation to a document.
`move` reads the value at `from`, removes it there and adds it at `path`
atomically (the whole operation fails if any step fails); `copy` reads at
`from` and adds at `path`; `test` deep-compares the value at `path`. -/
def applyOp (doc : Json) (patchOp : PatchOp) : Except String Json :=
  match parsePointer patchOp.path with
  | none => .error "invalid JSON pointer"
  | some path =>
    match patchOp.op with
    | .ADD => addAtPath doc path (patchOp.value.getD .null)
    | .REMOVE => removeAtPath doc path
    | .REPLACE => replaceAtPath doc path (patchOp.value.getD .null)
    | .MOVE =>
      match patchOp.fromPath with
      | none => .error "move: missing from pointer"
      | some fp =>
        match parsePointer fp with
        | none => .error "invalid JSON pointer"
        | some fromPtr =>
          match getAtPath doc fromPtr with
          | .ok v =>
            match removeAtPath doc fromPtr with
            | .ok d => addAtPath d path v
            | .error e => .error e
          | .error e => .error e
    | .COPY =>
      match patchOp.fromPath with
      | none => .error "copy: missing from pointer"
      | some fp =>
        match parsePointer fp with
        | none => .error "invalid JSON pointer"
        | some fromPtr =>
          match getAtPath doc fromPtr with
          | .ok v => addAtPath doc path v
          | .error e => .error e
    | .TEST =>
      match getAtPath doc path with
      | .ok v =>
        if Json.beq v (patchOp.value.getD .null) then .ok doc
        else .error "test operation failed"
      | .error e => .error e

/-- Modelled from the spec: apply an ordered sequence of operations, in
sequence order, stopping at the first failure. -/
def applyPatch (doc : Json) : List PatchOp → Except String Json
  | [] => .ok doc
  | patchOp :: rest =>
    match applyOp doc patchOp with
    | .ok d => applyPatch d rest
    | .error e => .error e

/-- `apply` from `utils/patch.ts`: a null/undefined or empty patch returns
the state unchanged, otherwise the patch is applied via `applyPatch`.
The TS `!patch` test (null or undefined) is modelled by `none`. -/
def apply (state : Json) (patch : Option (List PatchOp)) : Except String Json :=
  match patch with
  | none => .ok state
  | some ps => if ps.length = 0 then .ok state else applyPatch state ps

/-- `addOp` from `utils/patch.ts`. -/
def addOp (path : String) (value : Json) : PatchOp :=
  { op := .ADD, path := path, value := some value }

/-- `removeOp` from `utils/patch.ts`. -/
def removeOp (path : String) : PatchOp :=
  { op := .REMOVE, path := path }

/-- `replaceOp` from `utils/patch.ts`. -/
def replaceOp (path : String) (value : Json) : PatchOp :=
  { op := .REPLACE, path := path, value := some value }

/-- `moveOp` from `utils/patch.ts`. -/
def moveOp (fromPath path : String) : PatchOp :=
  { op := .MOVE, path := path, fromPath := some fromPath }

/-- `copyOp` from `utils/patch.ts`. -/
def copyOp (fromPath path : String) : PatchOp :=
  { op := .COPY, path := path, fromPath := some fromPath }

/-- `testOp` from `utils/patch.ts`. -/
def testOp (path : String) (value : Json) : PatchOp :=
  { op := .TEST, path := path, value := some value }

/-- `enum EvalResult` from `types/core.ts`. -/
inductive EvalResult where
  | FIXABLE_ERROR | TRANSIENT_ERROR | HARD_FAILURE | COMPLETE | WAITING
deriving DecidableEq

/-- `enum InvocationMode` from `types/core.ts`. -/
inductive InvocationMode where
  | PARALLEL | BATCH
deriving DecidableEq

/-- `interface StageDirector` from `types/core.ts`: per-item routing
metadata. Absent/empty TS strings are both modelled by `""` (the code only
ever tests them for JS truthiness). -/
structure StageDirector where
  action : String
  outputPath : String
  nextStage : String
  failureStage : String
deriving DecidableEq

/-- `interface Trigger` from `types/core.ts`. -/
structure Trigger where
  topic : String
  ephemeral : Bool := false
deriving DecidableEq

/-- `interface HandlerEvent` from `types/core.ts`. -/
structure HandlerEvent where
  idempotencyKey : Option String := none
  topic : String := ""
  data : Json := .null

/-- A plain JSON input object carrying the four StageDirector fields, as
arriving over the wire. Absent fields are modelled by `""` (falsy). -/
structure PlainInput where
  action : String := ""
  outputPath : String := ""
  nextStage : String := ""
  failureStage : String := ""
deriving DecidableEq

/-- The parsed `input` of a work item as `evalDirected` sees it: either a
plain data object (to be validated and wrapped), or a typed value that
already exposes `getStageDirector` (the `WithStageDirector` interface). -/
inductive EvalInput where
  | plain (p : PlainInput)
  | directed (sd : StageDirector)
deriving DecidableEq

/-- `getStageDirector()`: for a plain object, the wrapper synthesized by
`evalDirected` returns its four directive fields; a typed value returns
its own StageDirector. -/
def EvalInput.getStageDirector : EvalInput → StageDirector
  | .plain p => ⟨p.action, p.outputPath, p.nextStage, p.failureStage⟩
  | .directed sd => sd

/-- One work item of an inbound batch (`WSEvaluateRequest`): the fields the
execution engine reads (`transactionId` and `stage` feed log/error text,
`input` carries the directive-bearing payload; `none` models null or
undefined input). -/
structure WSEvaluateRequest where
  transactionId : String := ""
  stage : String := ""
  input : Option EvalInput := none

/-- `interface WSEvaluateReplyResult` from `types/core.ts`: one reply slot
(`{error?, stage?, subflow?, stateUpdates?, triggers?, events?}`). -/
structure WSEvaluateReplyResult where
  error : Option String := none
  stage : Option String := none
  subflow : Option String := none
  stateUpdates : Option (List PatchOp) := none
  triggers : Option (List Trigger) := none
  events : Option (List HandlerEvent) := none

/-- A batch of work items bound to one handler name. -/
structure WSEvaluateBatch where
  handler : String := ""
  requests : List WSEvaluateRequest := []

/-- The outcome object a directed action callback returns
(`DirectedTransactionBatchOut` in `interfaces/handlers`): outcome kind plus
optional output, error, triggers, extra patch ops, override stage, events.
A thrown `Error` is modelled by its message string. -/
structure DirectedTransactionBatchOut where
  result : EvalResult
  output : Option Json := none
  error : Option String := none
  triggers : List Trigger := []
  extraUpdates : List PatchOp := []
  customStage : String := ""
  events : List HandlerEvent := []

/-- `DirectedRequestBatchIn`: one item handed to a batch callback. -/
structure DirectedRequestBatchIn where
  transaction : WSEvaluateRequest
  value : EvalInput

/-- `interface DirectedActionConfig`: invocation mode plus the optional
single-item and batch callbacks. Callbacks are modelled as pure functions
into `Except String` (`.error` models a thrown/rejected callback, carrying
the thrown error's message as `getErrorMessage` extracts it). -/
structure DirectedActionConfig where
  invocationMode : InvocationMode
  handler : Option (WSEvaluateRequest → EvalInput → Except String DirectedTransactionBatchOut) := none
  batchHandler : Option (List DirectedRequestBatchIn → Except String (List DirectedTransactionBatchOut)) := none

/-- Modelled from the spec: the i18n error catalogue (`i18n/errors.ts`) is
not among this repository's sources; the codes and the texts of KA140621
and KA140623 are pinned by the repository's i18n unit test, the remaining
texts only stand in for the formatted message. -/
def MsgSDKDirectorNextStageMissing : String :=
  "KA140604: nextStage missing in StageDirector"

/-- Modelled from the spec: see `MsgSDKDirectorNextStageMissing`. -/
def MsgSDKDirectorOutputPathMissing : String :=
  "KA140605: outputPath missing in StageDirector"

/-- Modelled from the spec: see `MsgSDKDirectorNextStageMissing`. -/
def MsgSDKDirectorFailureStageMissing : String :=
  "KA140606: failureStage missing in StageDirector"

/-- Modelled from the spec: text pinned by the i18n unit test. -/
def MsgSDKHandlerNotConfigured : String :=
  "KA140621: Handler not configured for this action"

/-- Modelled from the spec: see `MsgSDKDirectorNextStageMissing`. -/
def MsgSDKBatchHandlerNotConfigured : String :=
  "KA140622: Batch handler not configured for this action"

/-- Modelled from the spec: format pinned by the i18n unit test. -/
def MsgSDKBatchHandlerResultCountMismatch (got expected : Nat) : String :=
  "KA140623: Batch handler returned " ++ toString got ++
    " results but expected " ++ toString expected

/-- Modelled from the spec: see `MsgSDKDirectorNextStageMissing`. -/
def MsgSDKInputNullOrUndefined (stage : String) : String :=
  "Input null or undefined evaluating stage " ++ stage

/-- Modelled from the spec: see `MsgSDKDirectorNextStageMissing`. -/
def MsgSDKMissingActionField (stage : String) : String :=
  "Missing action field in input evaluating stage " ++ stage

/-- `StageDirectorHelper.mapOutput` from `helpers/stage_director`:
maps a callback's outcome to one reply slot. Faithful translation of the
TS body: triggers/events copied when non-empty; a non-null output with a
non-empty `outputPath` becomes one `add` patch op (an empty `outputPath`
sets the output-path-missing error and downgrades to FIXABLE_ERROR only
when no error was supplied); extra updates are appended; then the switch
on the (possibly downgraded) outcome sets stage/error. TS `undefined`
strings and `""` are both modelled by `""`. -/
def mapOutput (stageDirector : StageDirector) (_request : WSEvaluateRequest)
    (result : EvalResult) (output : Option Json) (error : Option String)
    (triggers : List Trigger) (extraStateUpdates : List PatchOp)
    (customStage : String) (events : List HandlerEvent) : WSEvaluateReplyResult :=
  let replyResult : WSEvaluateReplyResult := {}
  let replyResult :=
    if triggers.length > 0 then { replyResult with triggers := some triggers } else replyResult
  let replyResult :=
    if events.length > 0 then { replyResult with events := some events } else replyResult
  let serialized :=
    match output with
    | some out =>
      if stageDirector.outputPath = "" then
        match error with
        | none => (replyResult, some MsgSDKDirectorOutputPathMissing, EvalResult.FIXABLE_ERROR)
        | some e => (replyResult, some e, result)
      else
        let outOp : PatchOp := { op := .ADD, path := stageDirector.outputPath, value := some out }
        ({ replyResult with stateUpdates := some [outOp] }, error, result)
    | none => (replyResult, error, result)
  let replyResult := serialized.1
  let error := serialized.2.1
  let result := serialized.2.2
  let replyResult :=
    if extraStateUpdates.length > 0 then
      { replyResult with stateUpdates := some (replyResult.stateUpdates.getD [] ++ extraStateUpdates) }
    else replyResult
  match result with
  | .HARD_FAILURE =>
    if stageDirector.failureStage = "" ∧ customStage = "" then
      { replyResult with error := some (error.getD MsgSDKDirectorFailureStageMissing) }
    else
      let next := if customStage ≠ "" then customStage else stageDirector.failureStage
      let replyResult := { replyResult with stage := some next }
      match error with
      | some e =>
        let errOp : PatchOp := { op := .ADD, path := "/error", value := some (Json.str e) }
        { replyResult with stateUpdates := some (replyResult.stateUpdates.getD [] ++ [errOp]) }
      | none => replyResult
  | .COMPLETE =>
    let next := if customStage ≠ "" then customStage else stageDirector.nextStage
    if next = "" then { error := some MsgSDKDirectorNextStageMissing }
    else { replyResult with stage := some next }
  | .WAITING => replyResult
  | .FIXABLE_ERROR | .TRANSIENT_ERROR =>
    match error with
    | some e => { replyResult with error := some e }
    | none => replyResult

/-- `execMapped` from `helpers/stage_director`: run one item through the
action's single-item callback. Everything in the TS body is inside one
`try` — a missing callback (`MsgSDKHandlerNotConfigured`) and a thrown
callback are both caught and become a reply-level error. -/
def execMapped (config : DirectedActionConfig) (request : WSEvaluateRequest)
    (input : EvalInput) : WSEvaluateReplyResult :=
  match config.handler with
  | none => { error := some MsgSDKHandlerNotConfigured }
  | some h =>
    match h request input with
    | .error e => { error := some e }
    | .ok hr =>
      mapOutput input.getStageDirector request hr.result hr.output hr.error
        hr.triggers hr.extraUpdates hr.customStage hr.events

/-- `execBatchMapped` from `helpers/stage_director`: run a whole bucket
through the action's batch callback. The missing-batch-callback throw sits
before the `try`, so it escapes (`.error`); a thrown callback or an
outcome-count mismatch is caught inside and becomes the same error reply
for every item of the bucket. The source does not pass `events` through to
`mapOutput` here. -/
def execBatchMapped (config : DirectedActionConfig)
    (requests : List DirectedRequestBatchIn) :
    Except String (List WSEvaluateReplyResult) :=
  match config.batchHandler with
  | none => .error MsgSDKBatchHandlerNotConfigured
  | some bh =>
    match bh requests with
    | .error e => .ok (requests.map fun _ => { error := some e })
    | .ok batchResults =>
      if batchResults.length ≠ requests.length then
        .ok (requests.map fun _ =>
          { error := some (MsgSDKBatchHandlerResultCountMismatch batchResults.length requests.length) })
      else
        .ok ((requests.zip batchResults).map fun (req, br) =>
          mapOutput req.value.getStageDirector req.transaction br.result br.output
            br.error br.triggers br.extraUpdates br.customStage [])

/-- Assoc-list lookup standing in for a TS `Map<string, _>`. -/
def assocLookup {α : Type} : List (String × α) → String → Option α
  | [], _ => none
  | (k, v) :: rest, key => if k = key then some v else assocLookup rest key

/-- Phase 1 of `evalDirected` for one item: null/absent input and a plain
input missing its `action` field yield an `Input parsing error: …` reply
slot; an action name absent from the action table yields the
`Invalid action …` reply slot; otherwise the item survives with its action
name, the action's configuration and the (wrapped) input. -/
def parseItem (handlerName : String) (actionMap : List (String × DirectedActionConfig))
    (req : WSEvaluateRequest) :
    Except WSEvaluateReplyResult (String × DirectedActionConfig × EvalInput) :=
  match req.input with
  | none => .error { error := some ("Input parsing error: " ++ MsgSDKInputNullOrUndefined req.stage) }
  | some inp =>
    let checked : Except WSEvaluateReplyResult EvalInput :=
      match inp with
      | .plain p =>
        if p.action = "" then
          .error { error := some ("Input parsing error: " ++ MsgSDKMissingActionField req.stage) }
        else .ok (.plain p)
      | .directed sd => .ok (.directed sd)
    match checked with
    | .error slot => .error slot
    | .ok input =>
      let sd := input.getStageDirector
      match assocLookup actionMap sd.action with
      | none =>
        .error { error := some ("Invalid action '" ++ sd.action ++ "' for handler '" ++ handlerName ++ "'") }
      | some conf => .ok (sd.action, conf, input)

/-- Group surviving items into per-action buckets, preserving
first-occurrence bucket order and per-bucket item order (JS `Map` insertion
order). The bucket keeps the action's configuration, which every item of
the bucket shares. -/
def insertGrouped
    (buckets : List (String × DirectedActionConfig × List (Nat × WSEvaluateRequest × EvalInput)))
    (action : String) (conf : DirectedActionConfig)
    (item : Nat × WSEvaluateRequest × EvalInput) :
    List (String × DirectedActionConfig × List (Nat × WSEvaluateRequest × EvalInput)) :=
  match buckets with
  | [] => [(action, conf, [item])]
  | (a, c, items) :: rest =>
    if a = action then (a, c, items ++ [item]) :: rest
    else (a, c, items) :: insertGrouped rest action conf item

/-- Phase 2 of `evalDirected` for one bucket: PARALLEL hands each item to
`execMapped` (which never rejects); BATCH hands the bucket to
`execBatchMapped`, whose `.error` (missing batch callback) propagates. -/
def execBucket (conf : DirectedActionConfig)
    (items : List (Nat × WSEvaluateRequest × EvalInput)) :
    Except String (List (Nat × WSEvaluateReplyResult)) :=
  match conf.invocationMode with
  | .PARALLEL => .ok (items.map fun (i, req, input) => (i, execMapped conf req input))
  | .BATCH =>
    match execBatchMapped conf (items.map fun (_, req, input) => ⟨req, input⟩) with
    | .error e => .error e
    | .ok outs => .ok ((items.map fun (i, _, _) => i).zip outs)

/-- Run all buckets, collecting index/reply assignments; the first bucket
rejection aborts the whole evaluation (TS `Promise.all`). -/
def execBuckets :
    List (String × DirectedActionConfig × List (Nat × WSEvaluateRequest × EvalInput)) →
    Except String (List (Nat × WSEvaluateReplyResult))
  | [] => .ok []
  | (_, conf, items) :: rest =>
    match execBucket conf items with
    | .error e => .error e
    | .ok rs =>
      match execBuckets rest with
      | .error e => .error e
      | .ok more => .ok (rs ++ more)

/-- Write each phase-1 parse-error reply into its slot (the loop's
`reply.results[i] = {error: …}; continue` arms). -/
def applyParseErrors :
    List (Nat × WSEvaluateRequest × Except WSEvaluateReplyResult (String × DirectedActionConfig × EvalInput)) →
    List (Option WSEvaluateReplyResult) → List (Option WSEvaluateReplyResult)
  | [], slots => slots
  | (i, _, .error slot) :: rest, slots => applyParseErrors rest (slots.set i (some slot))
  | (_, _, .ok _) :: rest, slots => applyParseErrors rest slots

/-- Collect the surviving items of phase 1 into per-action buckets
(the loop's `byAction` map). -/
def groupSurvivors :
    List (Nat × WSEvaluateRequest × Except WSEvaluateReplyResult (String × DirectedActionConfig × EvalInput)) →
    List (String × DirectedActionConfig × List (Nat × WSEvaluateRequest × EvalInput)) →
    List (String × DirectedActionConfig × List (Nat × WSEvaluateRequest × EvalInput))
  | [], buckets => buckets
  | (i, req, .ok (action, conf, input)) :: rest, buckets =>
    groupSurvivors rest (insertGrouped buckets action conf (i, req, input))
  | (_, _, .error _) :: rest, buckets => groupSurvivors rest buckets

/-- Phase 3: write each executed item's reply at its original index. -/
def fillAssignments :
    List (Nat × WSEvaluateReplyResult) → List (Option WSEvaluateReplyResult) →
    List (Option WSEvaluateReplyResult)
  | [], slots => slots
  | (i, r) :: rest, slots => fillAssignments rest (slots.set i (some r))

/-- `evalDirected` from `helpers/stage_director`: the directed execution
engine. `reply.results = new Array(n)` is modelled as a list of `n`
optional slots (a JS array hole is `none`); phase-1 parse errors fill
their slots directly, phase 3 writes each executed item's reply at its
original index. The TS phase-1 loop assigns error slots and builds the
byAction map in one pass; the two accumulators are independent, so it is
split here into `applyParseErrors` and `groupSurvivors` over the same
parsed list. A rejection (`.error`) models the TS promise rejecting, in
which case `reply.results` is never reassembled. -/
def evalDirected (batch : WSEvaluateBatch)
    (actionMap : List (String × DirectedActionConfig)) :
    Except String (List (Option WSEvaluateReplyResult)) :=
  let parsed := batch.requests.enum.map fun (i, req) =>
    (i, req, parseItem batch.handler actionMap req)
  let initSlots := applyParseErrors parsed
    (List.replicate batch.requests.length (none : Option WSEvaluateReplyResult))
  let buckets := groupSurvivors parsed []
  match execBuckets buckets with
  | .error e => .error e
  | .ok assignments => .ok (fillAssignments assignments initSlots)

/-- An inbound `handle_transactions` envelope (`WSHandleTransactions`):
the absent/empty `handler` field is modelled by `""` (the code only tests
`!batch.handler`). -/
structure WSHandleTransactions where
  id : String := ""
  handler : String := ""
  transactions : List WSEvaluateRequest := []

/-- The outbound `handle_transactions_result` envelope. -/
structure WSHandleTransactionsResult where
  id : String := ""
  handler : String := ""
  results : List (Option WSEvaluateReplyResult) := []
  error : Option String := none

/-- `HandlerRuntime.handleTransactionsMessage` from
`runtime/handler_runtime.ts`. Registered transaction handlers are modelled
as directed handlers (an action table), matching
`newDirectedTransactionHandler`, whose `transactionHandlerBatch` is
`evalDirected`. `none` models the early return that sends no reply when
`batch.handler` is falsy; otherwise the reply envelope is built with
`results: []`, then either filled by the handler, overwritten with one
error per transaction when the handler rejects, or, for an unregistered
name, left empty with a batch-level `error`. -/
def handleTransactionsMessage
    (transactionHandlers : List (String × List (String × DirectedActionConfig)))
    (batch : WSHandleTransactions) : Option WSHandleTransactionsResult :=
  if batch.handler = "" then none
  else
    match assocLookup transactionHandlers batch.handler with
    | some actionMap =>
      match evalDirected { handler := batch.handler, requests := batch.transactions } actionMap with
      | .ok results =>
        some { id := batch.id, handler := batch.handler, results := results }
      | .error e =>
        some { id := batch.id, handler := batch.handler,
               results := batch.transactions.map fun _ => some { error := some e } }
    | none =>
      some { id := batch.id, handler := batch.handler, results := [],
             error := some ("No transaction handler registered: " ++ batch.handler) }

/-- `IdempotentSubmitResult` from `types/core.ts`. -/
structure IdempotentSubmitResult where
  id : String := ""
  position : Nat := 0
  idempotencyKey : Option String := none
  preexisting : Bool := false
  rejectedError : Option String := none
deriving DecidableEq

/-- The `engineapi_submit_transactions_result` reply envelope as
`EngineClient.handleResponse` reads it. -/
structure WSEngineAPISubmitTransactionsResult where
  id : String := ""
  error : Option String := none
  submissions : Option (List IdempotentSubmitResult) := none

/-- What `handleResponse` does to the matching pending call (settling the
stored promise), or the warning when no call matches. -/
inductive CorrelatorAction where
  | resolved (submissions : List IdempotentSubmitResult)
  | rejected (message : String)
  | warnedUnknown
deriving DecidableEq

/-- JS truthiness of an optional string (`if (message.error)`): an absent
or empty string is falsy. -/
def strTruthy : Option String → Bool
  | some s => s != ""
  | none => false

/-- `EngineClient.handleResponse` from the request correlator: the pending
calls are modelled by their correlation ids (their resolve/reject closures
become the returned `CorrelatorAction`). A matching id is deleted and its
call rejected with a truthy `error`, else resolved with
`submissions || []`; an unmatched id leaves the map untouched and only
logs a warning. The function is total: it never throws. -/
def handleResponse (inflightRequests : List String)
    (message : WSEngineAPISubmitTransactionsResult) :
    List String × CorrelatorAction :=
  if inflightRequests.contains message.id then
    (inflightRequests.erase message.id,
     if strTruthy message.error then .rejected (message.error.getD "")
     else .resolved (message.submissions.getD []))
  else (inflightRequests, .warnedUnknown)

/-! ## Helper lemmas -/

/-- Applying a concatenated patch equals applying the two halves in
sequence (stopping at the first failure). -/
theorem applyPatch_append (p1 : List PatchOp) : ∀ (doc : Json) (p2 : List PatchOp),
    applyPatch doc (p1 ++ p2) =
      match applyPatch doc p1 with
      | .ok d => applyPatch d p2
      | .error e => .error e := by
  induction p1 with
  | nil => intro doc p2; rfl
  | cons patchOp l ih =>
    intro doc p2
    show applyPatch doc (patchOp :: (l ++ p2)) = _
    cases happ : applyOp doc patchOp with
    | ok d => simp only [applyPatch, happ]; exact ih d p2
    | error e => simp only [applyPatch, happ]

/-- A `move` whose `from` pointer parses, reads value `v` and removes to
leave document `d` behaves as removing at `from` followed by adding `v`
at `path`. -/
theorem apply_move_decomposition (doc : Json) (fp tp : String) (ptr : List String)
    (v d : Json)
    (hparse : parsePointer fp = some ptr)
    (hget : getAtPath doc ptr = .ok v)
    (hrem : removeAtPath doc ptr = .ok d) :
    apply doc (some [moveOp fp tp]) = apply d (some [addOp tp v]) := by
  cases hptp : parsePointer tp with
  | none =>
    simp [apply, applyPatch, applyOp, moveOp, addOp, hptp, hparse, hget, hrem]
  | some ptr2 =>
    simp only [apply, applyPatch, applyOp, moveOp, addOp, hptp, hparse, hget, hrem,
      List.length_cons, List.length_nil]
    cases hadd : addAtPath d ptr2 v <;> simp [hadd]

/-- An `add` at array index `-` appends to the array. -/
theorem applyOp_add_dash (elems : List Json) (v : Json) :
    applyOp (.arr elems) (addOp "/-" v) = .ok (.arr (elems ++ [v])) := by
  have hp : parsePointer "/-" = some ["-"] := rfl
  simp [applyOp, addOp, hp, addAtPath]

/-- Writing parse-error slots never changes the slot array's length. -/
theorem applyParseErrors_length :
    ∀ (l : List (Nat × WSEvaluateRequest ×
        Except WSEvaluateReplyResult (String × DirectedActionConfig × EvalInput)))
      (slots : List (Option WSEvaluateReplyResult)),
    (applyParseErrors l slots).length = slots.length
  | [], _ => rfl
  | (_, _, .error _) :: rest, slots => by
    rw [applyParseErrors, applyParseErrors_length rest, List.length_set]
  | (_, _, .ok _) :: rest, slots => by
    rw [applyParseErrors, applyParseErrors_length rest]

/-- Phase-3 reassembly never changes the slot array's length. -/
theorem fillAssignments_length :
    ∀ (l : List (Nat × WSEvaluateReplyResult))
      (slots : List (Option WSEvaluateReplyResult)),
    (fillAssignments l slots).length = slots.length
  | [], _ => rfl
  | (_, _) :: rest, slots => by
    rw [fillAssignments, fillAssignments_length rest, List.length_set]

/-- Whenever `evalDirected` resolves, the produced results array has
exactly one slot per input item: the slot array is created with the
batch's length and only ever written to by index. -/
theorem evalDirected_ok_length (batch : WSEvaluateBatch)
    (actionMap : List (String × DirectedActionConfig))
    (results : List (Option WSEvaluateReplyResult))
    (h : evalDirected batch actionMap = .ok results) :
    results.length = batch.requests.length := by
  simp only [evalDirected] at h
  split at h
  · exact absurd h (by simp)
  · rename_i assignments _
    have hres := (Except.ok.inj h).symm
    rw [hres, fillAssignments_length, applyParseErrors_length, List.length_replicate]

/-- The observable outcome of `handleTransactionsMessage`: the length of
the reply's results array when a reply is produced. -/
def replyResultsLength : Option WSHandleTransactionsResult → Option Nat
  | some reply => some reply.results.length
  | none => none

/-! ## Claim theorems -/

/-- C9: For every Patch built from the add/remove/replace/move/copy/test
operation constructors and every document, `apply(document, patch)`
implements RFC-6902-equivalent semantics: operations are applied in
sequence order (applying a concatenation equals applying the pieces in
order); a `move` removes the value at `from` and adds it at `path`
atomically (it behaves exactly as that remove followed by that add); an
array index of `-` appends to the array. -/
theorem patch_apply_rfc6902 :
    (∀ (doc : Json) (p1 p2 : List PatchOp),
      applyPatch doc (p1 ++ p2) =
        match applyPatch doc p1 with
        | .ok d => applyPatch d p2
        | .error e => .error e) ∧
    (∀ (doc : Json) (fp tp : String) (ptr : List String) (v d : Json),
      parsePointer fp = some ptr → getAtPath doc ptr = .ok v →
      removeAtPath doc ptr = .ok d →
      apply doc (some [moveOp fp tp]) = apply d (some [addOp tp v])) ∧
    (∀ (elems : List Json) (v : Json),
      apply (.arr elems) (some [addOp "/-" v]) = .ok (.arr (elems ++ [v]))) := by
  refine ⟨fun doc p1 p2 => applyPatch_append p1 doc p2, apply_move_decomposition,
    fun elems v => ?_⟩
  simp [apply, applyPatch, applyOp_add_dash]

/-- C9 witness: the move decomposition applied to the concrete document
`{"a": 1}`, moving `/a` to `/b`. -/
theorem patch_apply_rfc6902_witness :
    apply (.obj [("a", .num 1)]) (some [moveOp "/a" "/b"]) =
      apply (.obj []) (some [addOp "/b" (.num 1)]) :=
  patch_apply_rfc6902.2.1 (.obj [("a", .num 1)]) "/a" "/b" ["a"] (.num 1) (.obj [])
    rfl rfl rfl

/-- C10: For every state document, `apply(state, patch)` returns the state
value itself, unchanged, whenever the patch is null/undefined (`none`) or
the empty sequence — the empty patch is an identity of patch
application. -/
theorem apply_empty_patch_identity (state : Json) :
    apply state none = .ok state ∧ apply state (some []) = .ok state :=
  ⟨rfl, rfl⟩

/-- C2: For every work item whose callback returns COMPLETE while the
override stage is supplied or the directive's nextStage is non-empty, the
reply slot's stage is the override stage when present, otherwise the
directive's nextStage; and a non-null output with a non-empty outputPath
is serialized as exactly one `{op: add, path: outputPath, value: output}`
patch operation (any extra handler-supplied updates follow after it). -/
theorem mapOutput_complete_output_serialized
    (sd : StageDirector) (req : WSEvaluateRequest) (out : Json)
    (error : Option String) (triggers : List Trigger) (extras : List PatchOp)
    (customStage : String) (events : List HandlerEvent)
    (hstage : customStage ≠ "" ∨ sd.nextStage ≠ "") (hpath : sd.outputPath ≠ "") :
    (mapOutput sd req .COMPLETE (some out) error triggers extras customStage events).stage =
        some (if customStage ≠ "" then customStage else sd.nextStage) ∧
    (mapOutput sd req .COMPLETE (some out) error triggers extras customStage events).stateUpdates =
        some ({ op := .ADD, path := sd.outputPath, value := some out } :: extras) := by
  rcases error with _ | e <;>
  rcases extras with _ | ⟨u, us⟩ <;>
  rcases triggers with _ | ⟨t, ts⟩ <;>
  rcases events with _ | ⟨ev, evs⟩ <;>
  by_cases hc : customStage = "" <;>
  simp_all [mapOutput]

/-- C2 witness: a COMPLETE outcome with output `{x:1}` at
`outputPath = /output` and `nextStage = next` yields `stage = next` and
the single patch `[{op: add, path: /output, value: {x:1}}]`. -/
theorem mapOutput_complete_output_serialized_witness :
    (mapOutput ⟨"a", "/output", "next", ""⟩ {} .COMPLETE (some (.obj [("x", .num 1)]))
        none [] [] "" []).stage = some "next" ∧
    (mapOutput ⟨"a", "/output", "next", ""⟩ {} .COMPLETE (some (.obj [("x", .num 1)]))
        none [] [] "" []).stateUpdates =
      some [{ op := .ADD, path := "/output", value := some (.obj [("x", .num 1)]) }] :=
  mapOutput_complete_output_serialized ⟨"a", "/output", "next", ""⟩ {}
    (.obj [("x", .num 1)]) none [] [] "" [] (Or.inr (by decide)) (by decide)

/-- C3: For every work item whose callback returns HARD_FAILURE while the
directive's failureStage is empty and no override stage is supplied, the
reply slot sets no stage and carries an error message (the supplied
error's message when one was supplied) — the outcome degrades to a
FIXABLE_ERROR-style bare error reply instead of transitioning. -/
theorem mapOutput_hard_failure_degrades
    (sd : StageDirector) (req : WSEvaluateRequest) (output : Option Json)
    (error : Option String) (triggers : List Trigger) (extras : List PatchOp)
    (events : List HandlerEvent)
    (hfs : sd.failureStage = "") :
    (mapOutput sd req .HARD_FAILURE output error triggers extras "" events).stage = none ∧
    (mapOutput sd req .HARD_FAILURE output error triggers extras "" events).error.isSome = true ∧
    (∀ e, error = some e →
      (mapOutput sd req .HARD_FAILURE output error triggers extras "" events).error = some e) := by
  rcases output with _ | v <;>
  rcases error with _ | e <;>
  by_cases hp : sd.outputPath = "" <;>
  rcases extras with _ | ⟨u, us⟩ <;>
  rcases triggers with _ | ⟨t, ts⟩ <;>
  rcases events with _ | ⟨ev, evs⟩ <;>
  simp_all [mapOutput]

/-- C3 witness: HARD_FAILURE with an empty failureStage, no override and a
supplied error `boom` sets no stage and reports `boom`. -/
theorem mapOutput_hard_failure_degrades_witness :
    (mapOutput ⟨"a", "/o", "n", ""⟩ {} .HARD_FAILURE none (some "boom") [] [] "" []).stage =
        none ∧
    (mapOutput ⟨"a", "/o", "n", ""⟩ {} .HARD_FAILURE none (some "boom") [] [] "" []).error =
        some "boom" := by
  have h := mapOutput_hard_failure_degrades ⟨"a", "/o", "n", ""⟩ {} none (some "boom")
    [] [] [] (by decide)
  exact ⟨h.1, h.2.2 "boom" rfl⟩

/-- C6 counterexample: a COMPLETE outcome producing output `1` with an
empty outputPath but a supplied error `boom` and a non-empty nextStage is
NOT downgraded to an error reply: the slot transitions to `next` and
carries no error at all (the output is silently dropped). -/
theorem mapOutput_output_empty_path_error_keeps_stage :
    mapOutput ⟨"a", "", "next", ""⟩ {} .COMPLETE (some (.num 1)) (some "boom") [] [] "" [] =
      { stage := some "next" } := rfl

/-- C6 amended: For every work item whose callback produces a non-null
output while the directive's outputPath is empty, the output is never
serialized into a patch operation; when the callback supplied no error,
the outcome is downgraded to a FIXABLE_ERROR-style error reply (no stage,
error = output-path-missing) even if the original outcome was COMPLETE;
when the callback did supply an error, the original outcome is kept — in
particular COMPLETE with an override or non-empty nextStage still
transitions and reports no error. -/
theorem mapOutput_output_empty_path_amended
    (sd : StageDirector) (req : WSEvaluateRequest) (result : EvalResult) (out : Json)
    (error : Option String) (triggers : List Trigger) (extras : List PatchOp)
    (customStage : String) (events : List HandlerEvent)
    (hpath : sd.outputPath = "") :
    (error = none →
      (mapOutput sd req result (some out) error triggers extras customStage events).stage =
          none ∧
      (mapOutput sd req result (some out) error triggers extras customStage events).error =
          some MsgSDKDirectorOutputPathMissing ∧
      (mapOutput sd req result (some out) error triggers extras customStage events).stateUpdates =
          (if extras.length > 0 then some extras else none)) ∧
    (∀ e, error = some e → result = .COMPLETE →
      (customStage ≠ "" ∨ sd.nextStage ≠ "") →
      (mapOutput sd req result (some out) error triggers extras customStage events).stage =
          some (if customStage ≠ "" then customStage else sd.nextStage) ∧
      (mapOutput sd req result (some out) error triggers extras customStage events).error =
          none ∧
      (mapOutput sd req result (some out) error triggers extras customStage events).stateUpdates =
          (if extras.length > 0 then some extras else none)) := by
  constructor
  · intro he
    subst he
    rcases result <;>
    rcases extras with _ | ⟨u, us⟩ <;>
    rcases triggers with _ | ⟨t, ts⟩ <;>
    rcases events with _ | ⟨ev, evs⟩ <;>
    by_cases hc : customStage = "" <;>
    simp_all [mapOutput]
  · intro e he hres hor
    subst he
    subst hres
    rcases extras with _ | ⟨u, us⟩ <;>
    rcases triggers with _ | ⟨t, ts⟩ <;>
    rcases events with _ | ⟨ev, evs⟩ <;>
    by_cases hc : customStage = "" <;>
    simp_all [mapOutput]

/-- C6 witness: with no supplied error, COMPLETE output at an empty
outputPath is downgraded: no stage, output-path-missing error, no
patch. -/
theorem mapOutput_output_empty_path_amended_witness :
    (mapOutput ⟨"a", "", "next", ""⟩ {} .COMPLETE (some (.num 1)) none [] [] "" []).stage =
        none ∧
    (mapOutput ⟨"a", "", "next", ""⟩ {} .COMPLETE (some (.num 1)) none [] [] "" []).error =
        some MsgSDKDirectorOutputPathMissing ∧
    (mapOutput ⟨"a", "", "next", ""⟩ {} .COMPLETE (some (.num 1)) none [] [] "" []).stateUpdates =
        (if ([] : List PatchOp).length > 0 then some ([] : List PatchOp) else none) :=
  (mapOutput_output_empty_path_amended ⟨"a", "", "next", ""⟩ {} .COMPLETE (.num 1)
    none [] [] "" [] (by decide)).1 rfl

/-- C4: For every batch-mode action bucket whose batch callback resolves
with a number of outcomes different from the number of input items, every
item in that bucket receives the same descriptive count-mismatch error
reply, the callback's results are discarded, and the bucket's evaluation
resolves (`.ok`) rather than crashing or rejecting. -/
theorem execBatchMapped_count_mismatch
    (config : DirectedActionConfig)
    (bh : List DirectedRequestBatchIn → Except String (List DirectedTransactionBatchOut))
    (requests : List DirectedRequestBatchIn) (outcomes : List DirectedTransactionBatchOut)
    (hbh : config.batchHandler = some bh) (hok : bh requests = .ok outcomes)
    (hmis : outcomes.length ≠ requests.length) :
    execBatchMapped config requests =
      .ok (requests.map fun _ =>
        { error := some (MsgSDKBatchHandlerResultCountMismatch outcomes.length requests.length) }) := by
  simp [execBatchMapped, hbh, hok, hmis]

/-- C4 witness: a batch callback returning 1 outcome for 2 items makes
both items carry the KA140623 count-mismatch error, and the evaluation
resolves. -/
theorem execBatchMapped_count_mismatch_witness :
    execBatchMapped
        { invocationMode := .BATCH,
          batchHandler := some fun _ => .ok [{ result := .COMPLETE }] }
        [⟨{}, .plain { action := "a" }⟩, ⟨{}, .plain { action := "a" }⟩] =
      .ok [{ error := some (MsgSDKBatchHandlerResultCountMismatch 1 2) },
           { error := some (MsgSDKBatchHandlerResultCountMismatch 1 2) }] := by
  have h := execBatchMapped_count_mismatch
    { invocationMode := .BATCH,
      batchHandler := some fun _ => .ok [{ result := .COMPLETE }] }
    (fun _ => .ok [{ result := .COMPLETE }])
    [⟨{}, .plain { action := "a" }⟩, ⟨{}, .plain { action := "a" }⟩]
    [{ result := .COMPLETE }] rfl rfl (by decide)
  exact h

/-- C5 counterexample: a parallel-mode action with no configured
single-item callback does NOT raise out of the batch evaluation: the
evaluation resolves and the item is given a per-item
handler-not-configured error reply. -/
theorem evalDirected_parallel_missing_callback_per_item :
    evalDirected
        { handler := "h", requests := [{ input := some (.plain { action := "a" }) }] }
        [("a", { invocationMode := .PARALLEL })] =
      .ok [some { error := some MsgSDKHandlerNotConfigured }] := rfl

/-- C5 amended: A batch-mode action with no configured batch callback
raises immediately out of the batch evaluation as a configuration error
(`evalDirected` rejects with KA140622); a parallel-mode action with no
configured single-item callback is instead converted into a per-item
KA140621 error reply for each of its items, like any thrown callback
error. -/
theorem missing_callback_behavior
    (config : DirectedActionConfig) (requests : List DirectedRequestBatchIn) :
    (config.batchHandler = none →
      execBatchMapped config requests = .error MsgSDKBatchHandlerNotConfigured) ∧
    (∀ (req : WSEvaluateRequest) (input : EvalInput), config.handler = none →
      execMapped config req input = { error := some MsgSDKHandlerNotConfigured }) ∧
    evalDirected
        { handler := "h", requests := [{ input := some (.plain { action := "b" }) }] }
        [("b", { invocationMode := .BATCH })] =
      .error MsgSDKBatchHandlerNotConfigured := by
  refine ⟨fun h => ?_, fun req input h => ?_, rfl⟩
  · simp [execBatchMapped, h]
  · simp [execMapped, h]

/-- C5 witness: the batch half of the amended claim at a concrete
unconfigured batch action. -/
theorem missing_callback_behavior_witness :
    execBatchMapped { invocationMode := .BATCH }
        [⟨{}, .plain { action := "b" }⟩] =
      .error MsgSDKBatchHandlerNotConfigured :=
  (missing_callback_behavior { invocationMode := .BATCH }
    [⟨{}, .plain { action := "b" }⟩]).1 rfl

/-- C1 counterexample: an inbound batch of 1 transaction for an
unregistered handler name produces a reply whose results array is empty
(length 0 ≠ 1): the batch-level error reply does not preserve the
length invariant. -/
theorem handleTransactions_unregistered_empty_results :
    handleTransactionsMessage []
        { id := "b1", handler := "h", transactions := [{}] } =
      some { id := "b1", handler := "h", results := [],
             error := some "No transaction handler registered: h" } ∧
    ({ id := "b1", handler := "h",
       transactions := [{}] } : WSHandleTransactions).transactions.length = 1 :=
  ⟨rfl, rfl⟩

/-- C1 amended: For every inbound transaction batch whose (non-empty)
handler name is registered (as a directed handler), the reply produced
has a results array of exactly the batch's length — always, including
when every item fails to parse, when callbacks throw, and when the whole
directed evaluation rejects (e.g. an unconfigured batch callback), in
which case the runtime substitutes one error reply per transaction. When
no handler is registered under the name, the reply instead carries a
batch-level error with an empty results array. -/
theorem handleTransactions_registered_reply_length
    (transactionHandlers : List (String × List (String × DirectedActionConfig)))
    (batch : WSHandleTransactions) (actionMap : List (String × DirectedActionConfig))
    (hh : ¬batch.handler = "")
    (hreg : assocLookup transactionHandlers batch.handler = some actionMap) :
    replyResultsLength (handleTransactionsMessage transactionHandlers batch) =
      some batch.transactions.length := by
  unfold handleTransactionsMessage
  rw [if_neg hh, hreg]
  cases hev : evalDirected { handler := batch.handler, requests := batch.transactions } actionMap with
  | ok results =>
    have hlen := evalDirected_ok_length _ _ _ hev
    simp only [hev, replyResultsLength]
    simpa using hlen
  | error e =>
    simp only [hev, replyResultsLength]
    simp

/-- C1 witness: a registered handler over a 2-item batch (whose items
both fail to parse, having no input) replies with exactly 2 slots. -/
theorem handleTransactions_registered_reply_length_witness :
    replyResultsLength (handleTransactionsMessage
        [("h", [("a", { invocationMode := .PARALLEL })])]
        { id := "b2", handler := "h", transactions := [{}, {}] }) = some 2 := by
  have h := handleTransactions_registered_reply_length
    [("h", [("a", { invocationMode := .PARALLEL })])]
    { id := "b2", handler := "h", transactions := [{}, {}] }
    [("a", { invocationMode := .PARALLEL })] (by decide) rfl
  exact h

/-- C7: evaluating the runtime at the failing input — an inbound
`handle_transactions` envelope whose `handler` field is absent (falsy) —
shows the request is silently dropped: no reply envelope is produced, for
any handler registry. The code's own unit test ("should handle an error
when handler is undefined") and the spec instead expect an error reply
`No transaction handler registered: undefined`. -/
theorem handleTransactions_absent_handler_drops
    (transactionHandlers : List (String × List (String × DirectedActionConfig))) :
    handleTransactionsMessage transactionHandlers
      { id := "test-request-id", handler := "", transactions := [{}] } = none := rfl

/-- C8: For every reply envelope fed to `EngineClient.handleResponse`:
when its id matches a pending call, the call is removed and — for a
(truthy) `error` field — rejected with that error message, otherwise
resolved with the reply's submissions array (the empty array when
absent); when its id matches no pending call, the pending set is left
unchanged and only a warning is logged (the function is total, so it
never throws). -/
theorem handleResponse_spec (inflight : List String)
    (message : WSEngineAPISubmitTransactionsResult) :
    (inflight.contains message.id = true →
      (∀ e, message.error = some e → ¬e = "" →
        handleResponse inflight message = (inflight.erase message.id, .rejected e)) ∧
      (message.error = none →
        handleResponse inflight message =
          (inflight.erase message.id, .resolved (message.submissions.getD [])))) ∧
    (inflight.contains message.id = false →
      handleResponse inflight message = (inflight, .warnedUnknown)) := by
  refine ⟨fun hc => ⟨fun e he hne => ?_, fun he => ?_⟩, fun hc => ?_⟩
  · simp at hc
    simp [handleResponse, hc, strTruthy, he, hne]
  · simp at hc
    simp [handleResponse, hc, strTruthy, he]
  · simp at hc
    simp [handleResponse, hc]

/-- C8 witness: a reply with a matching id and error `bad` removes the
pending call and rejects it with `bad`. -/
theorem handleResponse_spec_witness :
    handleResponse ["r1"] { id := "r1", error := some "bad" } = ([], .rejected "bad") := by
  have h := ((handleResponse_spec ["r1"] { id := "r1", error := some "bad" }).1 rfl).1
    "bad" rfl (by decide)
  exact h

end KaleidoSDK

example : KaleidoSDK.Json.beq (.num 1) .null = false := rfl
example : KaleidoSDK.Json.beq (.obj [("a", .num 1)]) (.obj [("a", .num 1)]) = true := rfl
example :
    KaleidoSDK.apply (.obj [("a", .num 1)]) (some [KaleidoSDK.moveOp "/a" "/b"]) =
      .ok (.obj [("b", .num 1)]) := rfl
example :
    KaleidoSDK.apply (.obj [("xs", .arr [.num 1])]) (some [KaleidoSDK.addOp "/xs/-" (.num 2)]) =
      .ok (.obj [("xs", .arr [.num 1, .num 2])]) := rfl
